import Mathlib

/-!
Verification of the usage-acquisition and alerting engine of the
claude-usage desktop tracker.

The definitions below are a shallow embedding of the Electron main-process
services:

* `NotificationService` (`electron/main.ts`, the variant with cooldown and
  persisted state, lines 203-436): threshold evaluation with hysteresis,
  cooldown and reset detection;
* `UsageService` (`electron/main.ts` lines 618-968): the poll-interval
  computation, the `fetchUsage` retry loop and the `percentUsed` fields of
  `parseUsageResponse`;
* `AuthService.checkSession` (`electron/services/AuthService.ts` lines
  27-92).

JavaScript numbers that the code only compares, adds and subtracts are
embedded as `Int`; timestamps are milliseconds since the epoch (the code
round-trips them through ISO strings, which preserves milliseconds).
-/

namespace ClaudeUsage

/-- Usage window type, `'session' | 'weekly'` in `electron/ipc/types.ts`. -/
inductive UsageType where
  | session
  | weekly
deriving DecidableEq

/-- One usage window of a `UsageData` snapshot (`electron/ipc/types.ts`
lines 7-26): `used`, `limit`, `percentUsed` and the `resetAt` ISO-timestamp
string. -/
structure UsageWindow where
  used : Int
  limit : Int
  percentUsed : Int
  resetAt : String
deriving DecidableEq

/-- A usage snapshot (`UsageData` in `electron/ipc/types.ts`). Only the two
window entries are modelled; `subscriptionTier`, `lastUpdated` and the
optional per-model breakdown are never read by the threshold engine or the
poll scheduler. -/
structure UsageData where
  sessionUsage : UsageWindow
  weeklyUsage : UsageWindow
deriving DecidableEq

/-- An alert threshold (`AlertThreshold` in `electron/ipc/types.ts`
lines 46-52). `percentage` is a number, embedded as `Int`. -/
structure AlertThreshold where
  id : String
  type : UsageType
  percentage : Int
  enabled : Bool
  soundEnabled : Bool
deriving DecidableEq

/-- An alert key. The code uses the string `` `${threshold.type}-${threshold.percentage}` ``
(main.ts line 246); since the type is one of two fixed words and the
percentage is a number, the string is determined by, and determines, this
pair, and `key.startsWith(type)` holds exactly when `utype = type`. -/
structure AlertKey where
  utype : UsageType
  percentage : Int
deriving DecidableEq

/-- The alert key of a threshold (main.ts line 246). -/
def alertKeyOf (t : AlertThreshold) : AlertKey :=
  ⟨t.type, t.percentage⟩

/-- A fired alert: the payload of `triggerNotification` /
`threshold:triggered` (main.ts lines 333-354). -/
structure FiredAlert where
  threshold : AlertThreshold
  currentPercent : Int
deriving DecidableEq

/-- The state of `NotificationService` (main.ts lines 212-226) together
with the store keys it reads and writes: the `triggeredAlerts` set, the two
last-observed reset timestamps, and the store's
`notifications.lastNotificationTimes` map (alert key to last-fired time in
milliseconds). The in-memory state and the persisted state move in
lock-step (every mutation is persisted immediately), so one copy models
both. -/
structure NotificationState where
  triggeredAlerts : Finset AlertKey
  lastSessionResetAt : Option String
  lastWeeklyResetAt : Option String
  lastNotificationTimes : AlertKey → Option Int

/-- `NOTIFICATION_COOLDOWN_MS = 4 * 60 * 60 * 1000` (main.ts line 210). -/
def NOTIFICATION_COOLDOWN_MS : Int := 4 * 60 * 60 * 1000

/-- `NotificationService.isWithinCooldown` (main.ts lines 274-281): false
when the key never fired, otherwise whether less than the cooldown has
elapsed since the persisted last-notification time. -/
def isWithinCooldown (lastTimes : AlertKey → Option Int) (key : AlertKey) (now : Int) : Bool :=
  match lastTimes key with
  | none => false
  | some last => decide (now - last < NOTIFICATION_COOLDOWN_MS)

/-- The percent the engine compares against a threshold of the given type
(main.ts lines 241-244). -/
def currentPercentFor (usage : UsageData) : UsageType → Int
  | .session => usage.sessionUsage.percentUsed
  | .weekly => usage.weeklyUsage.percentUsed

/-- The snapshot's reset timestamp for a usage type. -/
def resetAtFor (usage : UsageData) : UsageType → String
  | .session => usage.sessionUsage.resetAt
  | .weekly => usage.weeklyUsage.resetAt

/-- The stored last-observed reset timestamp for a usage type. -/
def lastResetFor (st : NotificationState) : UsageType → Option String
  | .session => st.lastSessionResetAt
  | .weekly => st.lastWeeklyResetAt

/-- `NotificationService.resetAlerts` (main.ts lines 319-328): delete every
triggered alert key of the given usage type (`key.startsWith(type)` on the
key strings). The store mirror `clearNotificationsForType`
(`TrayIconGenerator.ts` lines 375-379) rewrites only the persisted
triggered list; the last-notification times are untouched. -/
def resetAlerts (st : NotificationState) (ty : UsageType) : NotificationState :=
  { st with triggeredAlerts := st.triggeredAlerts.filter (fun k => k.utype ≠ ty) }

/-- The rollover test of `checkForUsageReset` (main.ts lines 297, 304):
`this.last<Type>ResetAt && usage.<type>Usage.resetAt !== this.last<Type>ResetAt`.
A `null` stored value is falsy, as is the empty string. -/
def rolloverDetected (last : Option String) (resetAt : String) : Bool :=
  match last with
  | none => false
  | some s => (s != "") && (resetAt != s)

/-- `NotificationService.checkForUsageReset` (main.ts lines 293-314): for
each usage type in order (session, then weekly), clear the triggered flags
of that type when a rollover is detected, then record the snapshot's reset
timestamp as the new last-observed value. -/
def checkForUsageReset (usage : UsageData) (st : NotificationState) : NotificationState :=
  let st1 :=
    if rolloverDetected st.lastSessionResetAt usage.sessionUsage.resetAt then
      resetAlerts st .session
    else st
  let st2 := { st1 with lastSessionResetAt := some usage.sessionUsage.resetAt }
  let st3 :=
    if rolloverDetected st2.lastWeeklyResetAt usage.weeklyUsage.resetAt then
      resetAlerts st2 .weekly
    else st2
  { st3 with lastWeeklyResetAt := some usage.weeklyUsage.resetAt }

/-- The body of the `for` loop of `checkThresholds` (main.ts lines
238-268), evaluating one threshold: skip when disabled; fire when the
percent reaches the threshold, the key is not already triggered and the
cooldown has lapsed (adding the key and recording the notification time);
finally clear the triggered flag when the percent is more than 5 points
below the threshold. -/
def evalThreshold (usage : UsageData) (now : Int) (acc : NotificationState × List FiredAlert)
    (t : AlertThreshold) : NotificationState × List FiredAlert :=
  if !t.enabled then acc else
  let st := acc.1
  let currentPercent := currentPercentFor usage t.type
  let key := alertKeyOf t
  let acc1 :=
    if t.percentage ≤ currentPercent ∧ key ∉ st.triggeredAlerts then
      if !isWithinCooldown st.lastNotificationTimes key now then
        ({ st with
            triggeredAlerts := insert key st.triggeredAlerts,
            lastNotificationTimes := fun k => if k = key then some now else st.lastNotificationTimes k },
          acc.2 ++ [⟨t, currentPercent⟩])
      else (st, acc.2)
    else (st, acc.2)
  if currentPercent < t.percentage - 5 then
    ({ acc1.1 with triggeredAlerts := acc1.1.triggeredAlerts.erase key }, acc1.2)
  else acc1

/-- `NotificationService.checkThresholds` (main.ts lines 231-269): first
`checkForUsageReset`, then the threshold loop. The threshold list and the
current time are the values the code reads from the settings store and the
clock. Returns the updated state and the list of fired alerts in order. -/
def checkThresholds (thresholds : List AlertThreshold) (usage : UsageData) (now : Int)
    (st : NotificationState) : NotificationState × List FiredAlert :=
  List.foldl (evalThreshold usage now) (checkForUsageReset usage st, []) thresholds

/-- `NotificationService.clearAllAlerts` (main.ts lines 411-418): empty the
triggered set and null both last-observed reset timestamps. The
last-notification times are not cleared. -/
def clearAllAlerts (st : NotificationState) : NotificationState :=
  { st with triggeredAlerts := ∅, lastSessionResetAt := none, lastWeeklyResetAt := none }

/-! The defensive parser. The upstream payloads are untyped JSON documents
(`any` in the TypeScript source), embedded as a `Json` tree. `null` also
stands for JavaScript `undefined`: the two are interchangeable for the
`??`, `||` and truthiness tests the parser performs. Numbers are embedded
as `Int`. -/

/-- An untyped upstream JSON value. -/
inductive Json where
  | null
  | bool (b : Bool)
  | num (n : Int)
  | str (s : String)
  | arr (elems : List Json)
  | obj (fields : List (String × Json))

/-- JavaScript property access `value[name]` on an arbitrary value: a
lookup in an object, `undefined` (here `null`) on everything else. -/
def Json.getField : Json → String → Json
  | .obj fields, name => ((fields.find? (fun f => f.1 == name)).map Prod.snd).getD .null
  | _, _ => .null

/-- JavaScript truthiness of a JSON value: `null`/`undefined`, `false`,
`0` and the empty string are falsy; objects and arrays are truthy. -/
def Json.truthy : Json → Bool
  | .null => false
  | .bool b => b
  | .num n => n != 0
  | .str s => s != ""
  | .arr _ => true
  | .obj _ => true

/-- Whether the value is `null`/`undefined` (the left operand test of
JavaScript `??`). -/
def Json.isNull : Json → Bool
  | .null => true
  | _ => false

/-- The `fiveHourUtilization` / `sevenDayUtilization` computation of
`UsageService.parseUsageResponse` (main.ts lines 817-832): the variable
starts at `0` and, inside `if (rateLimitData)` and
`if (rateLimitData.<window>)`, is assigned
`rateLimitData.<window>.utilization ?? 0`. The value read from the payload
is passed through verbatim; no clamping is applied anywhere on this path. -/
def extractUtilization (rateLimitData : Json) (window : String) : Json :=
  if rateLimitData.truthy then
    let w := rateLimitData.getField window
    if w.truthy then
      let u := w.getField "utilization"
      if u.isNull then Json.num 0 else u
    else Json.num 0
  else Json.num 0

/-- The `percentUsed` fields of the snapshot returned by
`UsageService.parseUsageResponse` (main.ts lines 812-885): the session
entry's `percentUsed` is `fiveHourUtilization` and the weekly entry's is
`sevenDayUtilization` (lines 873 and 879), both taken verbatim from the
rate-limit payload. The bootstrap payload feeds only the tier, the
estimated `used`/`limit` values and the reset timestamps, none of which
flow back into `percentUsed`, so it is accepted and ignored here. -/
def parseUsagePercents (_bootstrapData rateLimitData : Json) : Json × Json :=
  (extractUtilization rateLimitData "five_hour",
    extractUtilization rateLimitData "seven_day")

/-- A parsed `percentUsed` value that is a number in `[0, 100]` — the range
the specification asserts for every constructed snapshot. -/
def percentInRange (j : Json) : Prop :=
  ∃ n : Int, j = Json.num n ∧ 0 ≤ n ∧ n ≤ 100

/-- A well-behaved upstream utilization field for the given window: absent
(or `null`), or a number already in `[0, 100]`. -/
def utilizationWellFormed (rateLimitData : Json) (window : String) : Prop :=
  (rateLimitData.getField window).getField "utilization" = Json.null ∨
    ∃ n : Int, (rateLimitData.getField window).getField "utilization" = Json.num n ∧
      0 ≤ n ∧ n ≤ 100

/-! The poll scheduler (`UsageService`, main.ts lines 618-968). -/

/-- `DEFAULT_POLL_MS = 60000` (main.ts line 635). -/
def DEFAULT_POLL_MS : Int := 60000

/-- `ACTIVE_POLL_MS = 30000` (main.ts line 636). -/
def ACTIVE_POLL_MS : Int := 30000

/-- `UsageService.getPollInterval` (main.ts lines 671-680).
`pollIntervalMs` is the configured `settings.pollIntervalMs` (`none` embeds
a missing value; the code's `||` also replaces a configured `0` by the
default). `lastUsage` is the most recently fetched snapshot. The JS
condition `this.lastUsage?.sessionUsage.percentUsed && … > 80` is truthy
exactly when a snapshot exists and its session percent is nonzero and
above 80. -/
def getPollInterval (pollIntervalMs : Option Int) (lastUsage : Option UsageData) : Int :=
  let baseInterval :=
    match pollIntervalMs with
    | some v => if v = 0 then DEFAULT_POLL_MS else v
    | none => DEFAULT_POLL_MS
  match lastUsage with
  | some u =>
    if u.sessionUsage.percentUsed ≠ 0 ∧ u.sessionUsage.percentUsed > 80 then
      min baseInterval ACTIVE_POLL_MS
    else baseInterval
  | none => baseInterval

/-- The specification's poll-interval formula, written from the spec's
words for comparison with `getPollInterval`: the effective interval is
`min base 30000` whenever the last session-window percent exceeds 80, and
the configured base interval (default 60000) otherwise. -/
def pollIntervalSpec (pollIntervalMs : Option Int) (lastUsage : Option UsageData) : Int :=
  let base := pollIntervalMs.getD DEFAULT_POLL_MS
  match lastUsage with
  | some u =>
    if u.sessionUsage.percentUsed > 80 then min base ACTIVE_POLL_MS else base
  | none => base

/-- Outcome of one `fetchUsageFromAPI` attempt (main.ts line 695): a parsed
snapshot, or a failure carrying the `status` property of the thrown error
(`none` for plain network errors, which have no status). -/
inductive FetchAttempt where
  | ok (usage : UsageData)
  | fail (status : Option Nat)
deriving DecidableEq

/-- An event emitted by `UsageService` during a fetch cycle:
`usage:error` (main.ts lines 688, 714), `auth:expired` (line 706) and
`usage:updated` with its staleness flag (lines 698, 719). -/
inductive UsageEvent where
  | usageError
  | authExpired
  | usageUpdated (usage : UsageData) (isStale : Bool)
deriving DecidableEq

/-- The observable result of one `fetchUsage` cycle: the events emitted in
order, the returned value, and the backoff delays awaited between
attempts. -/
structure FetchCycleResult where
  events : List UsageEvent
  returned : Option UsageData
  delaysMs : List Int
deriving DecidableEq

/-- The retry loop of `fetchUsage` (main.ts lines 692-728), with
`MAX_RETRIES = 3` (line 637). `r` is the value of `retries` on loop entry
and `fuel = MAX_RETRIES - r`, so the `retries >= MAX_RETRIES` test after
the increment is `fuel = 0`. Attempt `r` succeeds with a snapshot (publish,
cache, return), fails with status 401 (emit `auth:expired`, stop, return
null), or fails otherwise: on the last attempt emit `usage:error` and fall
back to the cached snapshot, republished stale, when one exists; before
that, await `1000 * 2 ^ retries` ms (with `retries` already incremented)
and try again. -/
def fetchUsageLoop (attempts : Nat → FetchAttempt) (cached : Option UsageData) :
    Nat → Nat → FetchCycleResult
  | 0, _ => ⟨[], none, []⟩
  | fuel + 1, r =>
    match attempts r with
    | .ok u => ⟨[.usageUpdated u false], some u, []⟩
    | .fail status =>
      if status = some 401 then ⟨[.authExpired], none, []⟩
      else if fuel = 0 then
        match cached with
        | some c => ⟨[.usageError, .usageUpdated c true], some c, []⟩
        | none => ⟨[.usageError], none, []⟩
      else
        let rest := fetchUsageLoop attempts cached fuel (r + 1)
        ⟨rest.events, rest.returned, (1000 * 2 ^ (r + 1) : Int) :: rest.delaysMs⟩

/-- `UsageService.fetchUsage` (main.ts lines 685-731): emit `usage:error`
and return null when no credential is stored, otherwise run the retry
loop starting at `retries = 0`. -/
def fetchUsage (sessionKey : Option String) (attempts : Nat → FetchAttempt)
    (cached : Option UsageData) : FetchCycleResult :=
  match sessionKey with
  | none => ⟨[.usageError], none, []⟩
  | some _ => fetchUsageLoop attempts cached 3 0

/-! Concurrency of fetch cycles. All code runs on the single main-process
event loop; a `fetchUsage` invocation executes synchronously from its entry
until `makeRequest` hands the request to the network layer (main.ts lines
769-806) and then suspends awaiting the response. A second invocation — in
particular `refresh()`, which is a direct call of `fetchUsage` (main.ts
lines 955-957) — can run this same synchronous prefix while the first is
suspended. The model below records, for two invocations A and B, how far
each has run and how many upstream requests are currently in flight. -/

/-- How far one invocation of `fetchUsage` has run: not yet invoked; past
the credential read and suspended with its first upstream request in
flight; or returned early because no credential was stored (main.ts lines
686-690). -/
inductive FetchPhase where
  | notStarted
  | requesting
  | errored
deriving DecidableEq

/-- Two overlapping `fetchUsage` invocations against the one
`UsageService` instance. Its fields are the only instance state consulted
on the synchronous prefix: the stored credential — and nothing else; the
class has no in-flight flag (`isPolling` guards only `startPolling`,
main.ts line 647, and is never read by `fetchUsage`). -/
structure PollerConcState where
  sessionKey : Option String
  phaseA : FetchPhase
  phaseB : FetchPhase
  requestsInFlight : Nat
deriving DecidableEq

/-- The synchronous prefix of one `fetchUsage` invocation (main.ts lines
686-695): read the credential; if absent, emit a usage-error and return;
otherwise enter the retry loop and issue the first upstream request,
suspending until the response arrives. No guard is consulted: the issue
decision depends only on the credential. -/
def fetchUsageStart (key : Option String) (phase : FetchPhase) (inFlight : Nat) :
    FetchPhase × Nat :=
  match phase with
  | .notStarted =>
    match key with
    | none => (.errored, inFlight)
    | some _ => (.requesting, inFlight + 1)
  | p => (p, inFlight)

/-- Schedule invocation A's synchronous prefix. -/
def startFetchA (s : PollerConcState) : PollerConcState :=
  let pn := fetchUsageStart s.sessionKey s.phaseA s.requestsInFlight
  { s with phaseA := pn.1, requestsInFlight := pn.2 }

/-- Schedule invocation B's synchronous prefix — the effect of a
`refresh()` call (main.ts lines 955-957) issued while A may already be
running. -/
def startFetchB (s : PollerConcState) : PollerConcState :=
  let pn := fetchUsageStart s.sessionKey s.phaseB s.requestsInFlight
  { s with phaseB := pn.1, requestsInFlight := pn.2 }

/-! Session validation (`AuthService`, `electron/services/AuthService.ts`). -/

/-- The result of `validateSessionKey` (AuthService.ts lines 78-92):
`valid = response.ok` and the HTTP status, with status `0` for a network
failure (the catch branch, where `valid = false`). -/
structure ProbeResult where
  valid : Bool
  status : Nat
deriving DecidableEq

/-- The outcome of `checkSession`: whether the session was reported valid,
and whether the stored credential was cleared (`clearAuth`). -/
structure SessionCheckResult where
  valid : Bool
  cleared : Bool
deriving DecidableEq

/-- One iteration of the `checkSession` retry loop (AuthService.ts lines
38-66): an explicit 401 clears the credential and reports the session
invalid; an ok response reports it valid; anything else falls through to
the next attempt. -/
def sessionAttemptStep (r : ProbeResult) (rest : SessionCheckResult) : SessionCheckResult :=
  if r.status = 401 then ⟨false, true⟩
  else if r.valid then ⟨true, false⟩
  else rest

/-- `AuthService.checkSession` (AuthService.ts lines 27-72): no stored
credential reports invalid without probing; otherwise up to
`maxRetries = 3` probes run (`probe i` is the result of attempt `i`, for
`i = 1, 2, 3`), and if all three are inconclusive the session is
optimistically reported still valid with the credential left in place. -/
def checkSession (sessionKey : Option String) (probe : Nat → ProbeResult) :
    SessionCheckResult :=
  match sessionKey with
  | none => ⟨false, false⟩
  | some _ =>
    sessionAttemptStep (probe 1)
      (sessionAttemptStep (probe 2)
        (sessionAttemptStep (probe 3) ⟨true, false⟩))

/-! Concrete instances used by the counterexamples and witnesses below. -/

/-- A rate-limit payload whose `five_hour.utilization` is the out-of-range
number 150. -/
def c1BadPayload : Json :=
  Json.obj [("five_hour", Json.obj [("utilization", Json.num 150)])]

/-- A rate-limit payload whose `five_hour.utilization` is 42 and whose
`seven_day` entry is absent. -/
def c1GoodPayload : Json :=
  Json.obj [("five_hour", Json.obj [("utilization", Json.num 42)])]

/-- The default `session-90` threshold (`electron/ipc/types.ts` line 118). -/
def c2Threshold : AlertThreshold := ⟨"session-90", .session, 90, true, true⟩

/-- Alert state just after `(session, 90)` fired at time `T = 0`: the key
is triggered and its last-notification time is 0. -/
def c2StateTriggered : NotificationState :=
  ⟨{⟨.session, 90⟩}, some "ra", some "rb",
    fun k => if k = ⟨.session, 90⟩ then some 0 else none⟩

/-- The same state after the triggered flag was cleared (by a usage drop or
a rollover); the persisted last-notification time remains. -/
def c2StateCleared : NotificationState :=
  ⟨∅, some "ra", some "rb",
    fun k => if k = ⟨.session, 90⟩ then some 0 else none⟩

/-- A snapshot at 95% session usage with unchanged reset timestamps. -/
def c2Snap95 : UsageData := ⟨⟨43, 45, 95, "ra"⟩, ⟨50, 500, 10, "rb"⟩⟩

/-- Alert state with one triggered session key and a stored session reset
timestamp. -/
def c3State : NotificationState :=
  ⟨{⟨.session, 90⟩}, some "old-reset", some "rb", fun _ => none⟩

/-- A snapshot whose session `resetAt` differs from the stored one while
`percentUsed` is still high. -/
def c3Snap : UsageData := ⟨⟨43, 45, 95, "new-reset"⟩, ⟨50, 500, 10, "rb"⟩⟩

/-- The default `session-75` threshold (`electron/ipc/types.ts` line 117). -/
def c4Threshold : AlertThreshold := ⟨"session-75", .session, 75, true, true⟩

/-- Empty initial alert state: nothing triggered, no observed reset
timestamps, no notification times. -/
def c4State0 : NotificationState := ⟨∅, none, none, fun _ => none⟩

/-- A session snapshot at the given percent with fixed reset timestamps. -/
def c4Snap (p : Int) : UsageData := ⟨⟨0, 45, p, "ra"⟩, ⟨0, 500, 10, "rb"⟩⟩

/-- First call of the specification's hysteresis scenario: 80% from the
empty state at time 0. -/
def c4Run1 : NotificationState × List FiredAlert :=
  checkThresholds [c4Threshold] (c4Snap 80) 0 c4State0

/-- Second call: 72% one hour later. -/
def c4Run2 : NotificationState × List FiredAlert :=
  checkThresholds [c4Threshold] (c4Snap 72) 3600000 c4Run1.1

/-- Third call: 80% again, past the 4-hour cooldown. -/
def c4Run3 : NotificationState × List FiredAlert :=
  checkThresholds [c4Threshold] (c4Snap 80) 20000000 c4Run2.1

/-- State with the `session-75` key triggered and its notification time
recorded at 0. -/
def c4TrigState : NotificationState :=
  ⟨{⟨.session, 75⟩}, some "ra", some "rb",
    fun k => if k = ⟨.session, 75⟩ then some 0 else none⟩

/-- The default `session-90` threshold again, for the idempotence witness. -/
def c5Threshold : AlertThreshold := ⟨"session-90", .session, 90, true, true⟩

/-- State whose `session-90` key is not triggered but fired recently (at
time 0), so the first call is blocked by the cooldown alone. -/
def c5State : NotificationState :=
  ⟨∅, some "ra", some "rb", fun k => if k = ⟨.session, 90⟩ then some 0 else none⟩

/-- A 95% session snapshot matching `c5State`'s stored reset timestamps. -/
def c5Snap : UsageData := ⟨⟨43, 45, 95, "ra"⟩, ⟨50, 500, 10, "rb"⟩⟩

/-- First call at `now = 1000`, within the cooldown: fires nothing. -/
def c5Run1 : NotificationState × List FiredAlert :=
  checkThresholds [c5Threshold] c5Snap 1000 c5State

/-- Second call with the same snapshot at `now = 20000000`, past the
cooldown. -/
def c5Run2 : NotificationState × List FiredAlert :=
  checkThresholds [c5Threshold] c5Snap 20000000 c5Run1.1

/-- A poller state before any fetch has started, with a stored credential. -/
def c6Start : PollerConcState := ⟨some "sk-ant-sid01-k", .notStarted, .notStarted, 0⟩

/-- A poller state with invocation A suspended on its in-flight request. -/
def c6InFlight : PollerConcState := ⟨some "sk-ant-sid01-k", .requesting, .notStarted, 1⟩

/-- A cached snapshot available for stale fallback. -/
def c8Cached : UsageData := ⟨⟨10, 45, 22, "ra"⟩, ⟨100, 500, 20, "rb"⟩⟩

/-- A snapshot at 85% session usage. -/
def c9Snap : UsageData := ⟨⟨38, 45, 85, "ra"⟩, ⟨50, 500, 10, "rb"⟩⟩

/-- State with a triggered session key and no stored reset timestamps
(fresh state, or the state `clearAllAlerts` leaves behind). -/
def c10State : NotificationState := ⟨{⟨.session, 90⟩}, none, none, fun _ => none⟩

/-- A snapshot with arbitrary reset timestamps, to show no clearing happens
on the first observation. -/
def c10Snap : UsageData := ⟨⟨43, 45, 95, "first-reset"⟩, ⟨50, 500, 10, "rb"⟩⟩

/-! Theorems. -/

/-- Characterization of `checkForUsageReset`: each type's triggered keys
are filtered out when its rollover test fires, the session test reading the
stored session timestamp and the weekly test the stored weekly timestamp;
both stored timestamps end up set to the snapshot's values and the
notification times are untouched. -/
theorem checkForUsageReset_eq (usage : UsageData) (st : NotificationState) :
    checkForUsageReset usage st =
      ⟨(if rolloverDetected st.lastWeeklyResetAt usage.weeklyUsage.resetAt then
          (if rolloverDetected st.lastSessionResetAt usage.sessionUsage.resetAt then
            st.triggeredAlerts.filter (fun k => k.utype ≠ .session)
          else st.triggeredAlerts).filter (fun k => k.utype ≠ .weekly)
        else
          (if rolloverDetected st.lastSessionResetAt usage.sessionUsage.resetAt then
            st.triggeredAlerts.filter (fun k => k.utype ≠ .session)
          else st.triggeredAlerts)),
        some usage.sessionUsage.resetAt,
        some usage.weeklyUsage.resetAt,
        st.lastNotificationTimes⟩ := by
  unfold checkForUsageReset resetAlerts
  by_cases hs : rolloverDetected st.lastSessionResetAt usage.sessionUsage.resetAt = true <;>
    by_cases hw : rolloverDetected st.lastWeeklyResetAt usage.weeklyUsage.resetAt = true <;>
    simp [hs, hw]

/-- A stored timestamp equal to the snapshot's detects no rollover. -/
theorem rolloverDetected_self (r : String) : rolloverDetected (some r) r = false := by
  simp [rolloverDetected]

/-- A differing, truthy stored timestamp detects a rollover. -/
theorem rolloverDetected_of_ne (s r : String) (hne : s ≠ "") (hdiff : r ≠ s) :
    rolloverDetected (some s) r = true := by
  simp [rolloverDetected, hne, hdiff]

/-- Every extracted utilization value is in `[0, 100]` provided the
upstream field, when present, is a number in that range. -/
theorem extractUtilization_in_range (rl : Json) (w : String)
    (h : utilizationWellFormed rl w) : percentInRange (extractUtilization rl w) := by
  have h0 : percentInRange (Json.num 0) := ⟨0, rfl, le_refl 0, by omega⟩
  unfold extractUtilization
  by_cases h1 : rl.truthy = true
  · simp only [h1, if_true]
    by_cases h2 : (rl.getField w).truthy = true
    · simp only [h2, if_true]
      rcases h with hnull | ⟨n, hn, hlo, hhi⟩
      · rw [hnull]
        exact h0
      · rw [hn]
        exact ⟨n, rfl, hlo, hhi⟩
    · simp only [h2, if_false]
      exact h0
  · simp only [h1, if_false]
    exact h0

/-- C1 counterexample: the claim asserts out-of-range upstream utilization
values are clamped into `[0, 100]`, but a payload reporting
`five_hour.utilization = 150` yields a snapshot whose session `percentUsed`
is 150, outside the range. -/
theorem c1_percent_not_clamped :
    (parseUsagePercents Json.null c1BadPayload).1 = Json.num 150 ∧
    ¬ percentInRange (parseUsagePercents Json.null c1BadPayload).1 := by
  refine ⟨rfl, ?_⟩
  rintro ⟨n, hn, -, hhi⟩
  have h150 : Json.num 150 = Json.num n := by
    have h : (parseUsagePercents Json.null c1BadPayload).1 = Json.num 150 := rfl
    rw [h] at hn
    exact hn
  injection h150 with h150
  omega

/-- C1 (amended): the parser never clamps; `percentUsed` for each window is
the upstream `utilization` value verbatim when present and non-null, and 0
when absent. Consequently `0 ≤ percentUsed ≤ 100` holds for both usage
entries provided the upstream utilization fields, when present, are numbers
already in `[0, 100]`. -/
theorem c1_percent_in_range (bootstrapData rateLimitData : Json)
    (h5 : utilizationWellFormed rateLimitData "five_hour")
    (h7 : utilizationWellFormed rateLimitData "seven_day") :
    percentInRange (parseUsagePercents bootstrapData rateLimitData).1 ∧
    percentInRange (parseUsagePercents bootstrapData rateLimitData).2 :=
  ⟨extractUtilization_in_range rateLimitData "five_hour" h5,
    extractUtilization_in_range rateLimitData "seven_day" h7⟩

/-- C1 witness: a payload with `five_hour.utilization = 42` and no
`seven_day` entry satisfies the hypotheses, and both parsed percentages are
in range. -/
theorem c1_percent_in_range_witness :
    utilizationWellFormed c1GoodPayload "five_hour" ∧
    utilizationWellFormed c1GoodPayload "seven_day" ∧
    percentInRange (parseUsagePercents Json.null c1GoodPayload).1 ∧
    percentInRange (parseUsagePercents Json.null c1GoodPayload).2 := by
  have h5 : utilizationWellFormed c1GoodPayload "five_hour" :=
    Or.inr ⟨42, rfl, by omega, by omega⟩
  have h7 : utilizationWellFormed c1GoodPayload "seven_day" := Or.inl rfl
  exact ⟨h5, h7, (c1_percent_in_range Json.null c1GoodPayload h5 h7).1,
    (c1_percent_in_range Json.null c1GoodPayload h5 h7).2⟩

/-- C6 counterexample: starting both invocations from a state with a stored
credential puts two upstream requests in flight at once, violating the
claimed single-flight bound of at most one. -/
theorem c6_two_requests_in_flight :
    (startFetchB (startFetchA c6Start)).requestsInFlight = 2 ∧
    ¬ (startFetchB (startFetchA c6Start)).requestsInFlight ≤ 1 := by
  exact ⟨rfl, by decide⟩

/-- C6 (amended): `fetchUsage` consults no in-flight guard, so a
`refresh()` issued while a cycle is already awaiting its upstream response
unconditionally issues a second concurrent request whenever a credential is
stored (only `startPolling` is guarded, by `isPolling`, which `fetchUsage`
never reads). -/
theorem c6_refresh_starts_second_request (s : PollerConcState) (k : String)
    (hk : s.sessionKey = some k) (hA : s.phaseA = .requesting)
    (hB : s.phaseB = .notStarted) :
    (startFetchB s).requestsInFlight = s.requestsInFlight + 1 ∧
    (startFetchB s).phaseB = .requesting ∧
    (startFetchB s).phaseA = .requesting := by
  simp [startFetchB, fetchUsageStart, hk, hB, hA]

/-- C6 witness: with invocation A suspended on its request, a refresh
raises the in-flight count to 2. -/
theorem c6_refresh_starts_second_request_witness :
    (startFetchB c6InFlight).requestsInFlight = c6InFlight.requestsInFlight + 1 ∧
    (startFetchB c6InFlight).phaseB = .requesting ∧
    (startFetchB c6InFlight).phaseA = .requesting :=
  c6_refresh_starts_second_request c6InFlight "sk-ant-sid01-k" rfl rfl rfl

/-- C9: the poll interval is `min base 30000` exactly when the last
fetched snapshot's session percent exceeds 80, and the configured base
interval (default 60000) otherwise — `getPollInterval` agrees with the
specification's formula whenever the configured interval is not the falsy
value 0. -/
theorem c9_poll_interval (pollIntervalMs : Option Int) (lastUsage : Option UsageData)
    (h : pollIntervalMs ≠ some 0) :
    getPollInterval pollIntervalMs lastUsage = pollIntervalSpec pollIntervalMs lastUsage := by
  cases pollIntervalMs with
  | none =>
    cases lastUsage with
    | none => rfl
    | some u =>
      unfold getPollInterval pollIntervalSpec
      by_cases hp : u.sessionUsage.percentUsed > 80
      · have hne : u.sessionUsage.percentUsed ≠ 0 := by omega
        simp [hp, hne]
      · simp [hp]
  | some v =>
    have hv : v ≠ 0 := fun hv0 => h (by rw [hv0])
    cases lastUsage with
    | none => simp [getPollInterval, pollIntervalSpec, hv]
    | some u =>
      unfold getPollInterval pollIntervalSpec
      by_cases hp : u.sessionUsage.percentUsed > 80
      · have hne : u.sessionUsage.percentUsed ≠ 0 := by omega
        simp [hp, hne, hv]
      · simp [hp, hv]

/-- C9 witness: at 85% session usage and the default 60000 ms setting the
code and the specification's formula agree (both give 30000). -/
theorem c9_poll_interval_witness :
    getPollInterval (some 60000) (some c9Snap) = pollIntervalSpec (some 60000) (some c9Snap) ∧
    getPollInterval (some 60000) (some c9Snap) = 30000 :=
  ⟨c9_poll_interval (some 60000) (some c9Snap) (by simp), by decide⟩

/-- C10: when the stored last-observed reset timestamp for a usage type is
`none` (fresh state, or after `clearAllAlerts`, which nulls both), a
`checkForUsageReset` pass clears nothing of that type regardless of the
snapshot's `resetAt`; it only records the snapshot's `resetAt` as the new
last-observed value, so rollover clearing can first occur on the second
observed snapshot. -/
theorem c10_null_reset_no_clearing (st : NotificationState) (usage : UsageData)
    (ty : UsageType) (h : lastResetFor st ty = none) :
    (∀ k : AlertKey, k.utype = ty →
      (k ∈ (checkForUsageReset usage st).triggeredAlerts ↔ k ∈ st.triggeredAlerts)) ∧
    lastResetFor (checkForUsageReset usage st) ty = some (resetAtFor usage ty) ∧
    lastResetFor (clearAllAlerts st) ty = none := by
  rw [checkForUsageReset_eq usage st]
  cases ty with
  | session =>
    have hs : st.lastSessionResetAt = none := h
    have hrd : rolloverDetected st.lastSessionResetAt usage.sessionUsage.resetAt = false := by
      rw [hs]
      rfl
    refine ⟨?_, rfl, rfl⟩
    intro k hk
    simp only [hrd, Bool.false_eq_true, if_false]
    by_cases hw : rolloverDetected st.lastWeeklyResetAt usage.weeklyUsage.resetAt = true
    · simp only [hw, if_true, Finset.mem_filter]
      constructor
      · exact fun hm => hm.1
      · intro hm
        refine ⟨hm, ?_⟩
        rw [hk]
        decide
    · simp [hw]
  | weekly =>
    have hw : st.lastWeeklyResetAt = none := h
    have hrd : rolloverDetected st.lastWeeklyResetAt usage.weeklyUsage.resetAt = false := by
      rw [hw]
      rfl
    refine ⟨?_, rfl, rfl⟩
    intro k hk
    simp only [hrd, Bool.false_eq_true, if_false]
    by_cases hs : rolloverDetected st.lastSessionResetAt usage.sessionUsage.resetAt = true
    · simp only [hs, if_true, Finset.mem_filter]
      constructor
      · exact fun hm => hm.1
      · intro hm
        refine ⟨hm, ?_⟩
        rw [hk]
        decide
    · simp [hs]

/-- A Boolean that is not true is false. -/
theorem bool_eq_false_of_not_true (b : Bool) (h : ¬ b = true) : b = false := by
  cases b
  · rfl
  · exact absurd rfl h

/-- The code's cooldown test agrees with the specification's reading: it is
out of cooldown exactly when the key never fired or at least the cooldown
duration has elapsed since its persisted last-notification time. -/
theorem isWithinCooldown_eq_false_iff (lastTimes : AlertKey → Option Int) (key : AlertKey)
    (now : Int) :
    isWithinCooldown lastTimes key now = false ↔
      ∀ last, lastTimes key = some last → NOTIFICATION_COOLDOWN_MS ≤ now - last := by
  cases h : lastTimes key with
  | none => simp [isWithinCooldown, h]
  | some last =>
    simp only [isWithinCooldown, h, decide_eq_false_iff_not, not_lt, Option.some.injEq]
    constructor
    · intro hle l hl
      rw [← hl]
      exact hle
    · intro hall
      exact hall last rfl

/-- C3: on a `checkThresholds` call whose snapshot carries, for some usage
type, a `resetAt` different from the (truthy) stored last-observed value,
all triggered flags of that type are cleared before any threshold is
evaluated — with no condition on `percentUsed` — and the stored value is
updated to the snapshot's; `checkThresholds` is definitionally the
threshold fold applied after `checkForUsageReset`. -/
theorem c3_rollover_clears (thresholds : List AlertThreshold) (st : NotificationState)
    (usage : UsageData) (now : Int) (ty : UsageType) (s : String)
    (hs : lastResetFor st ty = some s) (hne : s ≠ "") (hdiff : resetAtFor usage ty ≠ s) :
    (∀ k ∈ (checkForUsageReset usage st).triggeredAlerts, k.utype ≠ ty) ∧
    lastResetFor (checkForUsageReset usage st) ty = some (resetAtFor usage ty) ∧
    checkThresholds thresholds usage now st =
      List.foldl (evalThreshold usage now) (checkForUsageReset usage st, []) thresholds := by
  have h3 : checkThresholds thresholds usage now st =
      List.foldl (evalThreshold usage now) (checkForUsageReset usage st, []) thresholds := rfl
  refine ⟨?_, ?_, h3⟩
  · rw [checkForUsageReset_eq usage st]
    cases ty with
    | session =>
      have hss : st.lastSessionResetAt = some s := hs
      have hrd : rolloverDetected st.lastSessionResetAt usage.sessionUsage.resetAt = true := by
        rw [hss]
        exact rolloverDetected_of_ne s usage.sessionUsage.resetAt hne hdiff
      intro k hk
      simp only [hrd, if_true] at hk
      by_cases hw : rolloverDetected st.lastWeeklyResetAt usage.weeklyUsage.resetAt = true
      · simp only [hw, if_true, Finset.mem_filter] at hk
        exact hk.1.2
      · have hwf : rolloverDetected st.lastWeeklyResetAt usage.weeklyUsage.resetAt = false :=
          bool_eq_false_of_not_true _ hw
        simp only [hwf, Bool.false_eq_true, if_false, Finset.mem_filter] at hk
        exact hk.2
    | weekly =>
      have hww : st.lastWeeklyResetAt = some s := hs
      have hrd : rolloverDetected st.lastWeeklyResetAt usage.weeklyUsage.resetAt = true := by
        rw [hww]
        exact rolloverDetected_of_ne s usage.weeklyUsage.resetAt hne hdiff
      intro k hk
      simp only [hrd, if_true, Finset.mem_filter] at hk
      exact hk.2
  · rw [checkForUsageReset_eq usage st]
    cases ty with
    | session => rfl
    | weekly => rfl

/-- C3 witness: a snapshot whose session `resetAt` changed from the stored
value clears the triggered session key while the usage sits at 95%, and
records the new timestamp. -/
theorem c3_rollover_clears_witness :
    (∀ k ∈ (checkForUsageReset c3Snap c3State).triggeredAlerts, k.utype ≠ .session) ∧
    lastResetFor (checkForUsageReset c3Snap c3State) .session =
      some (resetAtFor c3Snap .session) ∧
    checkThresholds [] c3Snap 0 c3State =
      List.foldl (evalThreshold c3Snap 0) (checkForUsageReset c3Snap c3State, []) [] :=
  c3_rollover_clears [] c3State c3Snap 0 .session "old-reset" rfl (by decide) (by decide)

/-- C7: `checkSession` with a stored credential clears it and reports the
session invalid exactly when some executed probe — one preceded only by
inconclusive attempts — returns an explicit 401; and when every probe of
the three attempts is inconclusive (not ok, not 401 — in particular three
consecutive network failures with status 0), it reports the session still
valid with the credential left in place. -/
theorem c7_checkSession (k : String) (probe : Nat → ProbeResult) :
    (checkSession (some k) probe = ⟨false, true⟩ ↔
      ∃ i, 1 ≤ i ∧ i ≤ 3 ∧ (probe i).status = 401 ∧
        ∀ j, 1 ≤ j → j < i → (probe j).status ≠ 401 ∧ (probe j).valid = false) ∧
    ((∀ i, 1 ≤ i → i ≤ 3 → (probe i).valid = false ∧ (probe i).status ≠ 401) →
      checkSession (some k) probe = ⟨true, false⟩) := by
  by_cases h1 : (probe 1).status = 401
  · have hres : checkSession (some k) probe = ⟨false, true⟩ := by
      unfold checkSession sessionAttemptStep
      rw [if_pos h1]
    refine ⟨⟨fun _ => ?_, fun _ => hres⟩, fun hall => ?_⟩
    · refine ⟨1, le_refl 1, by omega, h1, fun j hj1 hj2 => ?_⟩
      exfalso
      omega
    · exact absurd h1 (hall 1 (by omega) (by omega)).2
  · by_cases hv1 : (probe 1).valid = true
    · have hres : checkSession (some k) probe = ⟨true, false⟩ := by
        unfold checkSession sessionAttemptStep
        rw [if_neg h1, if_pos hv1]
      refine ⟨⟨fun he => absurd (hres ▸ he) (by decide), ?_⟩, fun _ => hres⟩
      rintro ⟨i, hi1, hi3, h401, hprev⟩
      exfalso
      interval_cases i
      · exact h1 h401
      · rw [(hprev 1 (by omega) (by omega)).2] at hv1
        exact absurd hv1 (by decide)
      · rw [(hprev 1 (by omega) (by omega)).2] at hv1
        exact absurd hv1 (by decide)
    · by_cases h2 : (probe 2).status = 401
      · have hres : checkSession (some k) probe = ⟨false, true⟩ := by
          unfold checkSession sessionAttemptStep
          rw [if_neg h1, if_neg hv1, if_pos h2]
        refine ⟨⟨fun _ => ?_, fun _ => hres⟩, fun hall => ?_⟩
        · refine ⟨2, by omega, by omega, h2, fun j hj1 hj2 => ?_⟩
          have hj : j = 1 := by omega
          rw [hj]
          exact ⟨h1, bool_eq_false_of_not_true _ hv1⟩
        · exact absurd h2 (hall 2 (by omega) (by omega)).2
      · by_cases hv2 : (probe 2).valid = true
        · have hres : checkSession (some k) probe = ⟨true, false⟩ := by
            unfold checkSession sessionAttemptStep
            rw [if_neg h1, if_neg hv1, if_neg h2, if_pos hv2]
          refine ⟨⟨fun he => absurd (hres ▸ he) (by decide), ?_⟩, fun _ => hres⟩
          rintro ⟨i, hi1, hi3, h401, hprev⟩
          exfalso
          interval_cases i
          · exact h1 h401
          · exact h2 h401
          · rw [(hprev 2 (by omega) (by omega)).2] at hv2
            exact absurd hv2 (by decide)
        · by_cases h3 : (probe 3).status = 401
          · have hres : checkSession (some k) probe = ⟨false, true⟩ := by
              unfold checkSession sessionAttemptStep
              rw [if_neg h1, if_neg hv1, if_neg h2, if_neg hv2, if_pos h3]
            refine ⟨⟨fun _ => ?_, fun _ => hres⟩, fun hall => ?_⟩
            · refine ⟨3, by omega, by omega, h3, fun j hj1 hj2 => ?_⟩
              have hj : j = 1 ∨ j = 2 := by omega
              rcases hj with hj | hj <;> rw [hj]
              · exact ⟨h1, bool_eq_false_of_not_true _ hv1⟩
              · exact ⟨h2, bool_eq_false_of_not_true _ hv2⟩
            · exact absurd h3 (hall 3 (by omega) (by omega)).2
          · by_cases hv3 : (probe 3).valid = true
            · have hres : checkSession (some k) probe = ⟨true, false⟩ := by
                unfold checkSession sessionAttemptStep
                rw [if_neg h1, if_neg hv1, if_neg h2, if_neg hv2, if_neg h3, if_pos hv3]
              refine ⟨⟨fun he => absurd (hres ▸ he) (by decide), ?_⟩, fun _ => hres⟩
              rintro ⟨i, hi1, hi3, h401, hprev⟩
              exfalso
              interval_cases i
              · exact h1 h401
              · exact h2 h401
              · exact h3 h401
            · have hres : checkSession (some k) probe = ⟨true, false⟩ := by
                unfold checkSession sessionAttemptStep
                rw [if_neg h1, if_neg hv1, if_neg h2, if_neg hv2, if_neg h3, if_neg hv3]
              refine ⟨⟨fun he => absurd (hres ▸ he) (by decide), ?_⟩, fun _ => hres⟩
              rintro ⟨i, hi1, hi3, h401, hprev⟩
              exfalso
              interval_cases i
              · exact h1 h401
              · exact h2 h401
              · exact h3 h401

/-- C7 witness: three consecutive network failures (status 0) report the
session still valid without clearing the credential; and a first probe
returning 401 reports it invalid and clears the credential. -/
theorem c7_checkSession_witness :
    checkSession (some "sk-ant-sid01-k") (fun _ => ⟨false, 0⟩) = ⟨true, false⟩ ∧
    checkSession (some "sk-ant-sid01-k") (fun _ => ⟨false, 401⟩) = ⟨false, true⟩ :=
  ⟨(c7_checkSession "sk-ant-sid01-k" (fun _ => ⟨false, 0⟩)).2 (fun _ _ _ => ⟨rfl, by decide⟩),
    (c7_checkSession "sk-ant-sid01-k" (fun _ => ⟨false, 401⟩)).1.mpr
      ⟨1, le_refl 1, by omega, rfl, fun j hj1 hj2 => by omega⟩⟩

/-- C8 counterexample: the claim asserts `usage-error` is emitted only on
an exhausted-retry cycle with no cache fallback available, but an exhausted
cycle with a cached snapshot emits `usage:error` and then republishes the
cache marked stale. -/
theorem c8_usage_error_despite_cache :
    UsageEvent.usageError ∈
      (fetchUsage (some "sk") (fun _ => .fail (some 500)) (some c8Cached)).events ∧
    (fetchUsage (some "sk") (fun _ => .fail (some 500)) (some c8Cached)).events =
      [.usageError, .usageUpdated c8Cached true] := by
  decide

/-- C8 (amended): a non-401 failure is retried within the cycle with
exponentially doubling delays (2000 ms then 4000 ms) up to `MAX_RETRIES =
3` attempts; on exhaustion `usage:error` is emitted unconditionally — with
or without a cache — and the cached snapshot, when present, is additionally
republished marked stale and returned. -/
theorem c8_retry_backoff_stale (k : String) (attempts : Nat → FetchAttempt)
    (cached : Option UsageData)
    (hfail : ∀ i, i < 3 → ∃ st, attempts i = .fail st ∧ st ≠ some 401) :
    fetchUsage (some k) attempts cached =
      ⟨(match cached with
        | some c => [.usageError, .usageUpdated c true]
        | none => [.usageError]),
        cached, [2000, 4000]⟩ := by
  obtain ⟨s0, h0, h0n⟩ := hfail 0 (by omega)
  obtain ⟨s1, h1, h1n⟩ := hfail 1 (by omega)
  obtain ⟨s2, h2, h2n⟩ := hfail 2 (by omega)
  cases cached with
  | none =>
    simp [fetchUsage, fetchUsageLoop, h0, h1, h2, h0n, h1n, h2n]
  | some c =>
    simp [fetchUsage, fetchUsageLoop, h0, h1, h2, h0n, h1n, h2n]

/-- C8 witness: three failures with status 500 and a cached snapshot yield
the error event, the stale republish, the cached return value and the
doubled delays. -/
theorem c8_retry_backoff_stale_witness :
    fetchUsage (some "sk") (fun _ => .fail (some 500)) (some c8Cached) =
      ⟨[.usageError, .usageUpdated c8Cached true], some c8Cached, [2000, 4000]⟩ :=
  c8_retry_backoff_stale "sk" (fun _ => .fail (some 500)) (some c8Cached)
    (fun i _ => ⟨some 500, rfl, by decide⟩)

/-- C10 witness: with nothing stored, the triggered session key survives a
first snapshot with a fresh `resetAt`, which is merely recorded. -/
theorem c10_null_reset_no_clearing_witness :
    ((⟨.session, 90⟩ : AlertKey) ∈ (checkForUsageReset c10Snap c10State).triggeredAlerts ↔
      (⟨.session, 90⟩ : AlertKey) ∈ c10State.triggeredAlerts) ∧
    lastResetFor (checkForUsageReset c10Snap c10State) .session =
      some (resetAtFor c10Snap .session) ∧
    lastResetFor (clearAllAlerts c10State) .session = none :=
  ⟨(c10_null_reset_no_clearing c10State c10Snap .session rfl).1 ⟨.session, 90⟩ rfl,
    (c10_null_reset_no_clearing c10State c10Snap .session rfl).2.1,
    (c10_null_reset_no_clearing c10State c10Snap .session rfl).2.2⟩

/-- C2: when `checkThresholds` evaluates an enabled threshold `t`, it fires
an alert for `t` exactly when the snapshot's percent for `t.type` has
reached `t.percentage`, the key `(t.type, t.percentage)` is not marked
triggered in the state at that point, and at least the 4-hour cooldown has
elapsed since that key's persisted last-notification time (or it never
fired); and on firing it marks the key triggered and records the
last-notification time as `now`. -/
theorem c2_fire_iff (st : NotificationState) (fired0 : List FiredAlert)
    (t : AlertThreshold) (usage : UsageData) (now : Int) (ht : t.enabled = true) :
    ((evalThreshold usage now (st, fired0) t).2 ≠ fired0 ↔
      (t.percentage ≤ currentPercentFor usage t.type ∧
        alertKeyOf t ∉ st.triggeredAlerts ∧
        ∀ last, st.lastNotificationTimes (alertKeyOf t) = some last →
          NOTIFICATION_COOLDOWN_MS ≤ now - last)) ∧
    (t.percentage ≤ currentPercentFor usage t.type →
      alertKeyOf t ∉ st.triggeredAlerts →
      (∀ last, st.lastNotificationTimes (alertKeyOf t) = some last →
        NOTIFICATION_COOLDOWN_MS ≤ now - last) →
      (evalThreshold usage now (st, fired0) t).2 =
        fired0 ++ [⟨t, currentPercentFor usage t.type⟩] ∧
      (evalThreshold usage now (st, fired0) t).1.triggeredAlerts =
        insert (alertKeyOf t) st.triggeredAlerts ∧
      (evalThreshold usage now (st, fired0) t).1.lastNotificationTimes (alertKeyOf t) =
        some now) := by
  unfold evalThreshold
  simp only [ht, Bool.not_true, Bool.false_eq_true, if_false]
  by_cases hcond : t.percentage ≤ currentPercentFor usage t.type ∧
      alertKeyOf t ∉ st.triggeredAlerts
  · have hnh : ¬ currentPercentFor usage t.type < t.percentage - 5 := by
      have h1 := hcond.1
      omega
    cases hcool : isWithinCooldown st.lastNotificationTimes (alertKeyOf t) now with
    | false =>
      rw [if_pos hcond, if_pos (show (!false) = true from rfl), if_neg hnh]
      refine ⟨?_, fun _ _ _ => ⟨rfl, rfl, ?_⟩⟩
      · refine iff_of_true ?_ ⟨hcond.1, hcond.2,
          (isWithinCooldown_eq_false_iff st.lastNotificationTimes (alertKeyOf t) now).mp hcool⟩
        intro habs
        have hl := congrArg List.length habs
        simp at hl
      · show (if alertKeyOf t = alertKeyOf t then some now
            else st.lastNotificationTimes (alertKeyOf t)) = some now
        rw [if_pos rfl]
    | true =>
      rw [if_pos hcond, if_neg (show ¬ (!true) = true from by decide), if_neg hnh]
      refine ⟨iff_of_false (fun habs => habs rfl) ?_, fun _ _ hcd => ?_⟩
      · rintro ⟨-, -, hcd⟩
        have hfalse :=
          (isWithinCooldown_eq_false_iff st.lastNotificationTimes (alertKeyOf t) now).mpr hcd
        rw [hcool] at hfalse
        exact absurd hfalse (by decide)
      · exfalso
        have hfalse :=
          (isWithinCooldown_eq_false_iff st.lastNotificationTimes (alertKeyOf t) now).mpr hcd
        rw [hcool] at hfalse
        exact absurd hfalse (by decide)
  · rw [if_neg hcond]
    by_cases hh : currentPercentFor usage t.type < t.percentage - 5
    · rw [if_pos hh]
      refine ⟨iff_of_false (fun habs => habs rfl) ?_, fun ha hb _ => absurd ⟨ha, hb⟩ hcond⟩
      rintro ⟨ha, hb, -⟩
      exact hcond ⟨ha, hb⟩
    · rw [if_neg hh]
      refine ⟨iff_of_false (fun habs => habs rfl) ?_, fun ha hb _ => absurd ⟨ha, hb⟩ hcond⟩
      rintro ⟨ha, hb, -⟩
      exact hcond ⟨ha, hb⟩

/-- C2 witness: with `(session, 90)` fired at `T = 0` and still triggered,
a 95% snapshot one hour later fires nothing; with the triggered flag
cleared, a 95% snapshot five hours after the firing fires again and records
the new time. -/
theorem c2_fire_iff_witness :
    (evalThreshold c2Snap95 3600000 (c2StateTriggered, []) c2Threshold).2 = [] ∧
    (evalThreshold c2Snap95 18000000 (c2StateCleared, []) c2Threshold).2 =
      [⟨c2Threshold, 95⟩] ∧
    (evalThreshold c2Snap95 18000000 (c2StateCleared, []) c2Threshold).1.lastNotificationTimes
      (alertKeyOf c2Threshold) = some 18000000 := by
  have h1 := (c2_fire_iff c2StateTriggered [] c2Threshold c2Snap95 3600000 rfl).1
  have h2 := (c2_fire_iff c2StateCleared [] c2Threshold c2Snap95 18000000 rfl).2
    (by decide) (by decide)
    (by
      intro last hl
      have h0 : c2StateCleared.lastNotificationTimes (alertKeyOf c2Threshold) = some 0 := by
        decide
      rw [h0] at hl
      injection hl with hinj
      rw [← hinj]
      decide)
  refine ⟨?_, ?_, h2.2.2⟩
  · by_contra hne
    rcases h1.mp hne with ⟨-, hmem, -⟩
    exact hmem (by decide)
  · exact h2.1

/-- C4 counterexample: the claim's scenario `80% → 72% → 80%` for threshold
75 does not behave as stated, because `72 < 75 − 5` is false (72 ≥ 70): the
first 80% fires, but the 72% snapshot does not clear the triggered flag,
and the second 80% — even past the cooldown — fires nothing. -/
theorem c4_seventytwo_does_not_clear :
    c4Run1.2 = [⟨c4Threshold, 80⟩] ∧
    alertKeyOf c4Threshold ∈ c4Run2.1.triggeredAlerts ∧
    c4Run3.2 = [] := by
  decide

/-- C4 (amended): for an enabled threshold `t` whose key is triggered, one
evaluation clears the triggered flag — regardless of cooldown — exactly
when `currentPercent < t.percentage - 5`; hence at 72% a 75-threshold flag
is retained (72 ≥ 70), while 68% clears it, and the sequence
`80% → 68% → 80%` fires at both 80% snapshots once the cooldown permits. -/
theorem c4_hysteresis_iff (st : NotificationState) (fired0 : List FiredAlert)
    (t : AlertThreshold) (usage : UsageData) (now : Int)
    (ht : t.enabled = true) (hmem : alertKeyOf t ∈ st.triggeredAlerts) :
    (alertKeyOf t ∉ (evalThreshold usage now (st, fired0) t).1.triggeredAlerts ↔
      currentPercentFor usage t.type < t.percentage - 5) := by
  have hcond : ¬ (t.percentage ≤ currentPercentFor usage t.type ∧
      alertKeyOf t ∉ st.triggeredAlerts) := fun h => h.2 hmem
  unfold evalThreshold
  simp only [ht, Bool.not_true, Bool.false_eq_true, if_false]
  rw [if_neg hcond]
  by_cases hh : currentPercentFor usage t.type < t.percentage - 5
  · rw [if_pos hh]
    exact iff_of_true (Finset.not_mem_erase _ _) hh
  · rw [if_neg hh]
    exact iff_of_false (fun habs => habs hmem) hh

/-- C4 witness: with the 75-key triggered, a 68% snapshot clears the flag
(68 < 70), and the subsequent 80% snapshot past the cooldown fires again. -/
theorem c4_hysteresis_iff_witness :
    alertKeyOf c4Threshold ∈ c4TrigState.triggeredAlerts ∧
    alertKeyOf c4Threshold ∉
      (evalThreshold (c4Snap 68) 3600000 (c4TrigState, []) c4Threshold).1.triggeredAlerts ∧
    (checkThresholds [c4Threshold] (c4Snap 80) 20000000
      (evalThreshold (c4Snap 68) 3600000 (c4TrigState, []) c4Threshold).1).2 =
      [⟨c4Threshold, 80⟩] :=
  ⟨by decide,
    (c4_hysteresis_iff c4TrigState [] c4Threshold (c4Snap 68) 3600000 rfl (by decide)).mpr
      (by decide),
    by decide⟩

/-- `evalThreshold` never changes the stored session reset timestamp. -/
theorem evalThreshold_lastSession (usage : UsageData) (now : Int)
    (acc : NotificationState × List FiredAlert) (t : AlertThreshold) :
    (evalThreshold usage now acc t).1.lastSessionResetAt = acc.1.lastSessionResetAt := by
  unfold evalThreshold
  dsimp only
  by_cases he : (!t.enabled) = true
  · rw [if_pos he]
  · rw [if_neg he]
    by_cases hcond : t.percentage ≤ currentPercentFor usage t.type ∧
        alertKeyOf t ∉ acc.1.triggeredAlerts
    · rw [if_pos hcond]
      by_cases hcool : (!isWithinCooldown acc.1.lastNotificationTimes (alertKeyOf t) now) = true
      · rw [if_pos hcool]
        by_cases hh : currentPercentFor usage t.type < t.percentage - 5
        · rw [if_pos hh]
        · rw [if_neg hh]
      · rw [if_neg hcool]
        by_cases hh : currentPercentFor usage t.type < t.percentage - 5
        · rw [if_pos hh]
        · rw [if_neg hh]
    · rw [if_neg hcond]
      by_cases hh : currentPercentFor usage t.type < t.percentage - 5
      · rw [if_pos hh]
      · rw [if_neg hh]

/-- `evalThreshold` never changes the stored weekly reset timestamp. -/
theorem evalThreshold_lastWeekly (usage : UsageData) (now : Int)
    (acc : NotificationState × List FiredAlert) (t : AlertThreshold) :
    (evalThreshold usage now acc t).1.lastWeeklyResetAt = acc.1.lastWeeklyResetAt := by
  unfold evalThreshold
  dsimp only
  by_cases he : (!t.enabled) = true
  · rw [if_pos he]
  · rw [if_neg he]
    by_cases hcond : t.percentage ≤ currentPercentFor usage t.type ∧
        alertKeyOf t ∉ acc.1.triggeredAlerts
    · rw [if_pos hcond]
      by_cases hcool : (!isWithinCooldown acc.1.lastNotificationTimes (alertKeyOf t) now) = true
      · rw [if_pos hcool]
        by_cases hh : currentPercentFor usage t.type < t.percentage - 5
        · rw [if_pos hh]
        · rw [if_neg hh]
      · rw [if_neg hcool]
        by_cases hh : currentPercentFor usage t.type < t.percentage - 5
        · rw [if_pos hh]
        · rw [if_neg hh]
    · rw [if_neg hcond]
      by_cases hh : currentPercentFor usage t.type < t.percentage - 5
      · rw [if_pos hh]
      · rw [if_neg hh]

/-- The threshold fold never changes the stored session reset timestamp. -/
theorem foldl_evalThreshold_lastSession (usage : UsageData) (now : Int)
    (l : List AlertThreshold) :
    ∀ acc : NotificationState × List FiredAlert,
      (List.foldl (evalThreshold usage now) acc l).1.lastSessionResetAt =
        acc.1.lastSessionResetAt := by
  induction l with
  | nil => intro acc; rfl
  | cons t ts ih =>
    intro acc
    rw [List.foldl_cons, ih (evalThreshold usage now acc t), evalThreshold_lastSession]

/-- The threshold fold never changes the stored weekly reset timestamp. -/
theorem foldl_evalThreshold_lastWeekly (usage : UsageData) (now : Int)
    (l : List AlertThreshold) :
    ∀ acc : NotificationState × List FiredAlert,
      (List.foldl (evalThreshold usage now) acc l).1.lastWeeklyResetAt =
        acc.1.lastWeeklyResetAt := by
  induction l with
  | nil => intro acc; rfl
  | cons t ts ih =>
    intro acc
    rw [List.foldl_cons, ih (evalThreshold usage now acc t), evalThreshold_lastWeekly]

/-- After any `checkThresholds` call the stored session reset timestamp is
the snapshot's. -/
theorem checkThresholds_lastSession (thresholds : List AlertThreshold) (usage : UsageData)
    (now : Int) (st : NotificationState) :
    (checkThresholds thresholds usage now st).1.lastSessionResetAt =
      some usage.sessionUsage.resetAt := by
  unfold checkThresholds
  rw [foldl_evalThreshold_lastSession, checkForUsageReset_eq]

/-- After any `checkThresholds` call the stored weekly reset timestamp is
the snapshot's. -/
theorem checkThresholds_lastWeekly (thresholds : List AlertThreshold) (usage : UsageData)
    (now : Int) (st : NotificationState) :
    (checkThresholds thresholds usage now st).1.lastWeeklyResetAt =
      some usage.weeklyUsage.resetAt := by
  unfold checkThresholds
  rw [foldl_evalThreshold_lastWeekly, checkForUsageReset_eq]

/-- When the stored reset timestamps already match the snapshot's,
`checkForUsageReset` leaves the triggered set unchanged. -/
theorem checkForUsageReset_triggered_stable (usage : UsageData) (st : NotificationState)
    (hs : st.lastSessionResetAt = some usage.sessionUsage.resetAt)
    (hw : st.lastWeeklyResetAt = some usage.weeklyUsage.resetAt) :
    (checkForUsageReset usage st).triggeredAlerts = st.triggeredAlerts := by
  rw [checkForUsageReset_eq usage st]
  show (if rolloverDetected st.lastWeeklyResetAt usage.weeklyUsage.resetAt then _ else _) =
    st.triggeredAlerts
  rw [hs, hw, rolloverDetected_self, rolloverDetected_self]
  simp

/-- One evaluation step preserves the invariant that every alert fired so
far is for a key outside `S0`, and that every `S0` key currently not
triggered has its percent strictly below its threshold minus the
hysteresis margin. -/
theorem evalThreshold_inv (usage : UsageData) (now : Int) (S0 : Finset AlertKey)
    (acc : NotificationState × List FiredAlert) (t : AlertThreshold)
    (hfired : ∀ a ∈ acc.2, alertKeyOf a.threshold ∉ S0)
    (hstate : ∀ k ∈ S0, k ∉ acc.1.triggeredAlerts →
      currentPercentFor usage k.utype < k.percentage - 5) :
    (∀ a ∈ (evalThreshold usage now acc t).2, alertKeyOf a.threshold ∉ S0) ∧
    (∀ k ∈ S0, k ∉ (evalThreshold usage now acc t).1.triggeredAlerts →
      currentPercentFor usage k.utype < k.percentage - 5) := by
  unfold evalThreshold
  dsimp only
  by_cases he : (!t.enabled) = true
  · rw [if_pos he]
    exact ⟨hfired, hstate⟩
  · rw [if_neg he]
    by_cases hcond : t.percentage ≤ currentPercentFor usage t.type ∧
        alertKeyOf t ∉ acc.1.triggeredAlerts
    · have hnh : ¬ currentPercentFor usage t.type < t.percentage - 5 := by
        have h1 := hcond.1
        omega
      rw [if_pos hcond]
      by_cases hcool : (!isWithinCooldown acc.1.lastNotificationTimes (alertKeyOf t) now) = true
      · rw [if_pos hcool, if_neg hnh]
        have hkey : alertKeyOf t ∉ S0 := by
          intro hin
          exact hnh (hstate (alertKeyOf t) hin hcond.2)
        constructor
        · intro a ha
          have ha' : a ∈ acc.2 ++ [(⟨t, currentPercentFor usage t.type⟩ : FiredAlert)] := ha
          rcases List.mem_append.mp ha' with h | h
          · exact hfired a h
          · have heq : a = ⟨t, currentPercentFor usage t.type⟩ := by simpa using h
            rw [heq]
            exact hkey
        · intro k hk hnot
          have hnot' : k ∉ acc.1.triggeredAlerts := fun hin =>
            hnot (Finset.mem_insert_of_mem hin)
          exact hstate k hk hnot'
      · rw [if_neg hcool, if_neg hnh]
        exact ⟨hfired, hstate⟩
    · rw [if_neg hcond]
      by_cases hh : currentPercentFor usage t.type < t.percentage - 5
      · rw [if_pos hh]
        refine ⟨hfired, fun k hk hnot => ?_⟩
        by_cases hkeq : k = alertKeyOf t
        · rw [hkeq]
          exact hh
        · have hnot' : k ∉ acc.1.triggeredAlerts := by
            intro hin
            exact hnot (Finset.mem_erase.mpr ⟨hkeq, hin⟩)
          exact hstate k hk hnot'
      · rw [if_neg hh]
        exact ⟨hfired, hstate⟩

/-- The fold over all thresholds fires only alerts whose keys are outside
`S0`, given the invariant initially. -/
theorem foldl_evalThreshold_inv (usage : UsageData) (now : Int) (S0 : Finset AlertKey)
    (l : List AlertThreshold) :
    ∀ acc : NotificationState × List FiredAlert,
      (∀ a ∈ acc.2, alertKeyOf a.threshold ∉ S0) →
      (∀ k ∈ S0, k ∉ acc.1.triggeredAlerts →
        currentPercentFor usage k.utype < k.percentage - 5) →
      ∀ a ∈ (List.foldl (evalThreshold usage now) acc l).2, alertKeyOf a.threshold ∉ S0 := by
  induction l with
  | nil =>
    intro acc h1 _ a ha
    exact h1 a ha
  | cons t ts ih =>
    intro acc h1 h2
    rw [List.foldl_cons]
    have h := evalThreshold_inv usage now S0 acc t h1 h2
    exact ih (evalThreshold usage now acc t) h.1 h.2

/-- C5: running `checkThresholds` a second time with the same snapshot —
so that neither stored reset timestamp changes between the calls — fires
nothing on the second call for any threshold key the first call left marked
triggered: every alert fired by the second call is for a key not in the
first call's triggered set. -/
theorem c5_second_call_no_refire (thresholds : List AlertThreshold) (usage : UsageData)
    (now1 now2 : Int) (st : NotificationState) (a : FiredAlert)
    (ha : a ∈ (checkThresholds thresholds usage now2
      (checkThresholds thresholds usage now1 st).1).2) :
    alertKeyOf a.threshold ∉ (checkThresholds thresholds usage now1 st).1.triggeredAlerts := by
  have hs := checkThresholds_lastSession thresholds usage now1 st
  have hw := checkThresholds_lastWeekly thresholds usage now1 st
  have htrig := checkForUsageReset_triggered_stable usage
    (checkThresholds thresholds usage now1 st).1 hs hw
  have ha' : a ∈ (List.foldl (evalThreshold usage now2)
      (checkForUsageReset usage (checkThresholds thresholds usage now1 st).1, [])
      thresholds).2 := ha
  refine foldl_evalThreshold_inv usage now2
    (checkThresholds thresholds usage now1 st).1.triggeredAlerts thresholds
    (checkForUsageReset usage (checkThresholds thresholds usage now1 st).1, [])
    ?_ ?_ a ha'
  · intro a' ha''
    exact absurd ha'' (List.not_mem_nil a')
  · intro k hk hnot
    have hnot' : k ∉ (checkForUsageReset usage
        (checkThresholds thresholds usage now1 st).1).triggeredAlerts := hnot
    rw [htrig] at hnot'
    exact absurd hk hnot'

/-- C5 witness: the `session-90` key is blocked by cooldown on the first
call (so left untriggered), fires on the second call past the cooldown, and
its key is indeed outside the first call's triggered set. -/
theorem c5_second_call_no_refire_witness :
    FiredAlert.mk c5Threshold 95 ∈ c5Run2.2 ∧
    alertKeyOf c5Threshold ∉ c5Run1.1.triggeredAlerts :=
  ⟨by decide,
    c5_second_call_no_refire [c5Threshold] c5Snap 1000 20000000 c5State
      ⟨c5Threshold, 95⟩ (by decide)⟩

end ClaudeUsage
